import Mathlib

/-!
Verification of the appointment booking and status-transition subsystem of the
healthme backend (controllers/appointmentController.js,
controllers/clinicalNoteController.js, services/appointment.service.js,
models/Appointment.js, utils/HttpError.js, middlewares/authMiddleware.js,
routes/appointmentRoutes.js and the notes routes in practitionerRoutes.js).

Persistent collections are modelled as lists of documents; object ids as
naturals; JavaScript Date values as naturals (milliseconds since the epoch, so
that `new Date(x)` on an already-parsed value is the identity and
`setHours(0,0,0,0)` truncates to a day boundary); Mongo `findOne` as
`List.find?`; `findByIdAndUpdate` / `updateOne` as a map over the collection
replacing the matching document.  Handlers return the response they send
(status code plus message plus payload) paired with the post-state of the
store; an async exception that escapes the handler (no response at all) is the
`thrown` result.
-/

namespace HealthMe

/-- Appointment document, translated from appointmentSchema in
models/Appointment.js: references to `patient` and `practitioner`, a `date`,
an exact `timeSlot` label, `duration` (schema default 30), `mode` (schema
default "virtual"), and optional `location`, `reason`, `notes`, `sessionLink`;
`status` is a string from the schema enum (schema default "pending").  The
schema declares no cancellation or completion fields. -/
structure Appointment where
  id : Nat
  patient : Nat
  practitioner : Nat
  date : Nat
  timeSlot : String
  duration : Nat := 30
  mode : String := "virtual"
  location : Option String := none
  reason : Option String := none
  notes : Option String := none
  sessionLink : Option String := none
  status : String := "pending"
  deriving DecidableEq, Repr

/-- ClinicalNote document, with the fields written and read by
clinicalNoteController.js (create, sign): patient / practitioner / appointment
references, the four SOAP narrative fields, `noteType` (defaulted "SOAP"),
`isSigned`, `signedDate`. -/
structure ClinicalNote where
  id : Nat
  patient : Nat
  practitioner : Nat
  appointment : Nat
  subjective : Option String := none
  objective : Option String := none
  assessment : Option String := none
  plan : Option String := none
  noteType : String := "SOAP"
  isSigned : Bool := false
  signedDate : Option Nat := none
  deriving DecidableEq, Repr

/-- The persistent store visible to the booking core: the Appointment and
ClinicalNote collections, the ids for which a Practitioner profile document
exists, a fresh-id supply for inserted documents, and the current clock in
milliseconds (for `new Date()` / `Date.now()`). -/
structure DB where
  appointments : List Appointment
  notes : List ClinicalNote
  practitioners : List Nat
  nextId : Nat
  now : Nat
  deriving DecidableEq, Repr

/-- The authenticated caller that the protect middleware attaches as req.user:
a role string ("patient" / "practitioner" / "admin") and the linked profile
id. -/
structure Caller where
  role : String
  profileId : Nat
  deriving DecidableEq, Repr

/-- What a request handler produces: a success response (HTTP code, message,
payload document), an error response (HTTP code from the HttpError subclass or
the literal res.status call, plus message), or an exception that escapes the
handler so that no response is sent at all. -/
inductive HandlerResult (α : Type) where
  | success (code : Nat) (message : String) (data : α)
  | error (code : Nat) (message : String)
  | thrown (message : String)
  deriving DecidableEq, Repr

/-- The HTTP status code of a response, when one was sent. -/
def HandlerResult.statusCode : HandlerResult α → Option Nat
  | .success c _ _ => some c
  | .error c _ => some c
  | .thrown _ => none

/-- JavaScript truthiness of an optional string field: absent (`undefined`)
and the empty string are falsy. -/
def truthyStr : Option String → Bool
  | none => false
  | some s => !(s == "")

/-! ## Availability Checker — appointmentController.checkAvailability -/

/-- The `$in` list of the availability query: statuses that keep a slot
blocked.  Completed and cancelled appointments are deliberately not counted. -/
def blockingStatuses : List String := ["pending", "confirmed", "rescheduled"]

/-- checkAvailability(practitionerId, date, timeSlot): `findOne` for an
appointment of the practitioner at the exact date and exact timeSlot whose
status is in `blockingStatuses`; the function returns true (available) when
none is found.  It takes no excludeAppointmentId argument and performs no
write. -/
def checkAvailability (db : DB) (practitionerId : Nat) (date : Nat)
    (timeSlot : String) : Bool :=
  (db.appointments.find? (fun a =>
    a.practitioner == practitionerId && a.date == date &&
      a.timeSlot == timeSlot && blockingStatuses.contains a.status)).isNone

/-! ## Booking — appointmentController.createAppointment -/

/-- Request body of POST /api/v1/appointments. -/
structure CreateBody where
  practitionerId : Option Nat := none
  date : Option Nat := none
  timeSlot : Option String := none
  mode : Option String := none
  reason : Option String := none
  duration : Option Nat := none
  location : Option String := none
  deriving DecidableEq, Repr

/-- The input validation of createAppointment:
`!practitionerId || !date || !timeSlot || !reason` fails the request. -/
def requiredBookingFieldsPresent (body : CreateBody) : Bool :=
  body.practitionerId.isSome && body.date.isSome &&
    truthyStr body.timeSlot && truthyStr body.reason

def missingFieldsMsg : String :=
  "Missing required fields for booking (practitionerId, date, timeSlot, reason)."

/-- createAppointment: validate the body, require the practitioner profile to
exist, require checkAvailability, then insert the document with
status "pending", the caller profile as patient, the schema defaults for
duration and mode, and location kept only when the body mode is
"in-person". -/
def createAppointment (db : DB) (caller : Caller) (body : CreateBody) :
    HandlerResult Appointment × DB :=
  if !(requiredBookingFieldsPresent body) then
    (.error 400 missingFieldsMsg, db)
  else
    let practitionerId := body.practitionerId.getD 0
    let date := body.date.getD 0
    let timeSlot := body.timeSlot.getD ""
    if !(db.practitioners.contains practitionerId) then
      (.error 404 "Practitioner not found.", db)
    else if !(checkAvailability db practitionerId date timeSlot) then
      (.error 409 "The selected time slot is already booked.", db)
    else
      let newAppointment : Appointment :=
        { id := db.nextId
          patient := caller.profileId
          practitioner := practitionerId
          date := date
          timeSlot := timeSlot
          mode := body.mode.getD "virtual"
          reason := body.reason
          duration := body.duration.getD 30
          location := if body.mode == some "in-person" then body.location else none
          notes := none
          sessionLink := none
          status := "pending" }
      (.success 201 "Appointment booked successfully and is pending confirmation."
          newAppointment,
        { db with appointments := db.appointments ++ [newAppointment],
                  nextId := db.nextId + 1 })

/-! ## Status updates — appointmentController.updateAppointmentStatus -/

/-- Request body of PUT /api/v1/appointments/:id/status. -/
structure StatusBody where
  status : Option String := none
  sessionLink : Option String := none
  notes : Option String := none
  deriving DecidableEq, Repr

/-- `const validStatuses = ["confirmed", "cancelled", "completed", "rescheduled"]`. -/
def validStatuses : List String := ["confirmed", "cancelled", "completed", "rescheduled"]

def invalidStatusMsg : String :=
  "Invalid status provided. Must be one of: " ++
    String.intercalate ", " validStatuses ++ "."

/-- The update document built by updateAppointmentStatus: status is
overwritten; sessionLink gets the body value exactly when the target status is
"confirmed" and is otherwise kept; notes is `notes || appointment.notes`
(overwritten only by a truthy body value). -/
def applyStatusUpdate (a : Appointment) (body : StatusBody) (status : String) :
    Appointment :=
  { a with
    status := status
    sessionLink := if status == "confirmed" then body.sessionLink else a.sessionLink
    notes := if truthyStr body.notes then body.notes else a.notes }

/-- updateAppointmentStatus: reject a status outside validStatuses with a 400
naming the allowed set, a missing appointment with 404, and a practitioner
caller who is not the assigned practitioner with a 400 BadRequestError
("Unauthorized to modify this appointment."); otherwise apply
`applyStatusUpdate` through findByIdAndUpdate and answer 200 with the updated
document.  There is no check on the current status of the appointment. -/
def updateAppointmentStatus (db : DB) (caller : Caller) (appointmentId : Nat)
    (body : StatusBody) : HandlerResult Appointment × DB :=
  let status := body.status.getD ""
  if !(validStatuses.contains status) then
    (.error 400 invalidStatusMsg, db)
  else
    match db.appointments.find? (fun a => a.id == appointmentId) with
    | none => (.error 404 "Appointment not found.", db)
    | some appointment =>
      if caller.role == "practitioner" && appointment.practitioner != caller.profileId then
        (.error 400 "Unauthorized to modify this appointment.", db)
      else
        let updated := applyStatusUpdate appointment body status
        (.success 200 ("Appointment status updated to " ++ status ++ ".") updated,
          { db with appointments := db.appointments.map (fun a =>
              if a.id == appointmentId then updated else a) })

/-! ## Route guards — authMiddleware.authorize, routes/appointmentRoutes.js -/

/-- authMiddleware.authorize(requiredRoles): a caller whose role is not in the
list is rejected with a 403 ForbiddenError before the controller runs. -/
def authorize (roles : List String) (caller : Caller) : Option (Nat × String) :=
  if !(roles.contains caller.role) then
    some (403, "Access denied. Role " ++ caller.role ++ " is not authorized for this route.")
  else none

/-- POST /api/v1/appointments as routed: protect, authorize(["patient"]),
createAppointment. -/
def createAppointmentEndpoint (db : DB) (caller : Caller) (body : CreateBody) :
    HandlerResult Appointment × DB :=
  match authorize ["patient"] caller with
  | some e => (.error e.1 e.2, db)
  | none => createAppointment db caller body

/-- PUT /api/v1/appointments/:id/status as routed: protect,
authorize(["practitioner", "admin"]), updateAppointmentStatus. -/
def updateStatusEndpoint (db : DB) (caller : Caller) (appointmentId : Nat)
    (body : StatusBody) : HandlerResult Appointment × DB :=
  match authorize ["practitioner", "admin"] caller with
  | some e => (.error e.1 e.2, db)
  | none => updateAppointmentStatus db caller appointmentId body

/-! ## The dead service layer — services/appointment.service.js.
No file in the repository requires this module; the routed handlers above are
the ones in appointmentController.js.  It is embedded because claims compare
its behaviour with the controller paths. -/

namespace AppointmentService

def msPerDay : Nat := 86400000

/-- `new Date(date)` followed by `setHours(0, 0, 0, 0)`: the day boundary
below the instant. -/
def startOfDay (d : Nat) : Nat := msPerDay * (d / msPerDay)

/-- `setHours(23, 59, 59, 999)`: the last millisecond of the day. -/
def endOfDay (d : Nat) : Nat := startOfDay d + (msPerDay - 1)

/-- The `$in` list of checkForConflicts: only "pending" and "confirmed" count
as blocking here; "rescheduled" is absent from the list. -/
def conflictStatuses : List String := ["pending", "confirmed"]

/-- The base query of checkForConflicts applied to one stored appointment:
date within the whole requested day, exact timeSlot, status in
`conflictStatuses`, and id different from excludeAppointmentId when one is
given. -/
def conflictQueryMatches (date : Nat) (timeSlot : String)
    (excludeAppointmentId : Option Nat) (a : Appointment) : Bool :=
  decide (startOfDay date ≤ a.date) && decide (a.date ≤ endOfDay date) &&
    a.timeSlot == timeSlot && conflictStatuses.contains a.status &&
    (match excludeAppointmentId with
     | none => true
     | some ex => a.id != ex)

/-- checkForConflicts(practitionerId, patientId, date, timeSlot,
excludeAppointmentId): true when the base query matches an appointment of the
practitioner, or failing that an appointment of the patient.  Read-only. -/
def checkForConflicts (db : DB) (practitionerId patientId : Nat) (date : Nat)
    (timeSlot : String) (excludeAppointmentId : Option Nat) : Bool :=
  if (db.appointments.find? (fun a =>
      conflictQueryMatches date timeSlot excludeAppointmentId a &&
        a.practitioner == practitionerId)).isSome then
    true
  else
    (db.appointments.find? (fun a =>
      conflictQueryMatches date timeSlot excludeAppointmentId a &&
        a.patient == patientId)).isSome

/-- The statuses this service-layer updater accepts: note "no-show" instead of
"rescheduled". -/
def serviceValidStatuses : List String := ["confirmed", "completed", "cancelled", "no-show"]

/-- The `$set` payload that the service updateAppointmentStatus builds before
calling findByIdAndUpdate.  The Appointment schema declares none of the three
stamp fields, so they are kept here as the raw update payload rather than as
document fields. -/
structure UpdateFields where
  status : String
  cancellationReason : Option String := none
  cancellationDate : Option Nat := none
  completionDate : Option Nat := none
  deriving DecidableEq, Repr

/-- The updateFields object of the service updateAppointmentStatus: always the
status; for "cancelled" additionally `cancellationReason || defaulted` and a
cancellation date; for "completed" additionally a completion date. -/
def buildUpdateFields (newStatus : String) (cancellationReason : Option String)
    (now : Nat) : UpdateFields :=
  let base : UpdateFields := { status := newStatus }
  let base :=
    if newStatus == "cancelled" then
      { base with
        cancellationReason :=
          if truthyStr cancellationReason then cancellationReason
          else some "Cancelled by user/admin."
        cancellationDate := some now }
    else base
  if newStatus == "completed" then { base with completionDate := some now }
  else base

/-- The service updateAppointmentStatus: throws on an invalid status or a
missing appointment, otherwise produces the `$set` payload it hands to
findByIdAndUpdate. -/
def updateAppointmentStatus (db : DB) (appointmentId : Nat) (newStatus : String)
    (cancellationReason : Option String) : Except String UpdateFields :=
  if !(serviceValidStatuses.contains newStatus) then
    .error "Invalid status provided."
  else
    match db.appointments.find? (fun a => a.id == appointmentId) with
    | none => .error "Appointment not found."
    | some _ => .ok (buildUpdateFields newStatus cancellationReason db.now)

end AppointmentService

/-! ## Clinical notes — clinicalNoteController.js and the /notes routes of
routes in practitionerRoutes.js. -/

/-- Request body of POST /api/v1/practitioners/notes. -/
structure NoteBody where
  appointmentId : Option Nat := none
  subjective : Option String := none
  objective : Option String := none
  assessment : Option String := none
  plan : Option String := none
  noteType : Option String := none
  deriving DecidableEq, Repr

/-- The identifiers bound at module scope of clinicalNoteController.js: its
two require lines bind exactly ClinicalNote and Appointment.  The identifier
`mongoose`, used on the first line of createClinicalNote, is not among them
and is not a JavaScript global. -/
def clinicalNoteControllerScope : List String := ["ClinicalNote", "Appointment"]

/-- The transactional body of createClinicalNote (everything from the
appointment lookup to the commit): 404 when the appointment is missing, 403
when the caller is not its assigned practitioner, 409 when a note for the
appointment already exists; otherwise, inside one session transaction, insert
the note (noteType `noteType || "SOAP"`, unsigned) and `$set` the appointment
status to "completed", then answer 201 with the new note. -/
def createClinicalNoteBody (db : DB) (caller : Caller) (body : NoteBody) :
    HandlerResult ClinicalNote × DB :=
  match db.appointments.find? (fun a => body.appointmentId == some a.id) with
  | none => (.error 404 "Appointment not found.", db)
  | some appointment =>
    if appointment.practitioner != caller.profileId then
      (.error 403 "Unauthorized: Note must be created by the assigned practitioner.", db)
    else
      match db.notes.find? (fun n => body.appointmentId == some n.appointment) with
      | some _ => (.error 409 "A clinical note already exists for this appointment.", db)
      | none =>
        let newNote : ClinicalNote :=
          { id := db.nextId
            patient := appointment.patient
            practitioner := caller.profileId
            appointment := appointment.id
            subjective := body.subjective
            objective := body.objective
            assessment := body.assessment
            plan := body.plan
            noteType := if truthyStr body.noteType then body.noteType.getD "SOAP" else "SOAP"
            isSigned := false
            signedDate := none }
        (.success 201 "Clinical note created successfully." newNote,
          { db with
            notes := db.notes ++ [newNote]
            appointments := db.appointments.map (fun a =>
              if body.appointmentId == some a.id then { a with status := "completed" } else a)
            nextId := db.nextId + 1 })

/-- createClinicalNote as it stands in the repository: its first statement,
`const session = await mongoose.startSession()`, evaluates the free identifier
`mongoose`, which `clinicalNoteControllerScope` does not bind, so a
ReferenceError is raised before the try block is entered; the route installs
the handler without the asyncHandler wrapper, so the rejection escapes and no
response is produced and no document is touched. -/
def createClinicalNote (db : DB) (caller : Caller) (body : NoteBody) :
    HandlerResult ClinicalNote × DB :=
  if !(clinicalNoteControllerScope.contains "mongoose") then
    (.thrown "ReferenceError: mongoose is not defined", db)
  else
    createClinicalNoteBody db caller body

/-- signClinicalNote: 404 when the note is missing, 403 when the caller is not
the creating practitioner, 400 BadRequest ("Note is already signed.") when
isSigned is already set; otherwise set isSigned and signedDate through
findByIdAndUpdate and answer 200 with the updated note. -/
def signClinicalNote (db : DB) (caller : Caller) (noteId : Nat) :
    HandlerResult ClinicalNote × DB :=
  match db.notes.find? (fun n => n.id == noteId) with
  | none => (.error 404 "Clinical note not found.", db)
  | some note =>
    if note.practitioner != caller.profileId then
      (.error 403 "Unauthorized: Only the originating practitioner can sign the note.", db)
    else if note.isSigned then
      (.error 400 "Note is already signed.", db)
    else
      let updated := { note with isSigned := true, signedDate := some db.now }
      (.success 200 "Clinical note has been successfully signed and finalized." updated,
        { db with notes := db.notes.map (fun n => if n.id == noteId then updated else n) })

/-! ## Operation sequences over the routed appointment endpoints. -/

/-- One call to a routed appointment endpoint. -/
inductive Op where
  | create (caller : Caller) (body : CreateBody)
  | updateStatus (caller : Caller) (appointmentId : Nat) (body : StatusBody)
  deriving Repr

/-- The state reached after one endpoint call (the response is dropped). -/
def step (db : DB) : Op → DB
  | .create caller body => (createAppointmentEndpoint db caller body).2
  | .updateStatus caller appointmentId body =>
      (updateStatusEndpoint db caller appointmentId body).2

/-- The state reached after a sequence of endpoint calls. -/
def run (db : DB) (ops : List Op) : DB := ops.foldl step db

/-- Whether an operation is a booking. -/
def Op.isCreate : Op → Bool
  | .create _ _ => true
  | .updateStatus _ _ _ => false

/-- Two stored appointments double-book a practitioner: both have a blocking
status and share practitioner, date, and timeSlot. -/
def practitionerConflict (a b : Appointment) : Bool :=
  blockingStatuses.contains a.status && blockingStatuses.contains b.status &&
    a.practitioner == b.practitioner && a.date == b.date && a.timeSlot == b.timeSlot

/-- Two stored appointments double-book a patient. -/
def patientConflict (a b : Appointment) : Bool :=
  blockingStatuses.contains a.status && blockingStatuses.contains b.status &&
    a.patient == b.patient && a.date == b.date && a.timeSlot == b.timeSlot

/-- The practitioner side of the no-double-booking invariant: no two stored
appointments double-book a practitioner. -/
def practitionerSlotFree (db : DB) : Prop :=
  db.appointments.Pairwise (fun a b => practitionerConflict a b = false)

/-- The patient side of the no-double-booking invariant. -/
def patientSlotFree (db : DB) : Prop :=
  db.appointments.Pairwise (fun a b => patientConflict a b = false)

instance (db : DB) : Decidable (practitionerSlotFree db) :=
  inferInstanceAs (Decidable (List.Pairwise _ _))

instance (db : DB) : Decidable (patientSlotFree db) :=
  inferInstanceAs (Decidable (List.Pairwise _ _))

/-! ## Helper lemmas on the status-update path. -/

/-- When the caller role passes the route guard, the endpoint is the
controller. -/
theorem updateStatusEndpoint_eq_controller (db : DB) (caller : Caller)
    (appointmentId : Nat) (body : StatusBody)
    (h : (["practitioner", "admin"] : List String).contains caller.role = true) :
    updateStatusEndpoint db caller appointmentId body =
      updateAppointmentStatus db caller appointmentId body := by
  unfold updateStatusEndpoint authorize
  have h' : caller.role = "practitioner" ∨ caller.role = "admin" := by
    simpa using h
  rcases h' with h' | h' <;> simp [h']

/-- Shape of a successful status update: the response is 200 with the updated
document, and the stored collection has the matching document replaced. -/
theorem updateAppointmentStatus_ok (db : DB) (caller : Caller)
    (appointmentId : Nat) (body : StatusBody) (a : Appointment) (s : String)
    (hfind : db.appointments.find? (fun x => x.id == appointmentId) = some a)
    (hs : body.status = some s) (hvalid : validStatuses.contains s = true)
    (hauth : (caller.role == "practitioner" && a.practitioner != caller.profileId) = false) :
    updateAppointmentStatus db caller appointmentId body =
      (.success 200 ("Appointment status updated to " ++ s ++ ".")
          (applyStatusUpdate a body s),
        { db with appointments := db.appointments.map (fun x =>
            if x.id == appointmentId then applyStatusUpdate a body s else x) }) := by
  unfold updateAppointmentStatus
  have hmem : s ∈ validStatuses := by simpa using hvalid
  simp [hs, hmem, hfind, hauth]

/-- A status value outside validStatuses (or an absent one) is rejected with
the 400 message naming the allowed set, and nothing is written. -/
theorem updateAppointmentStatus_invalid (db : DB) (caller : Caller)
    (appointmentId : Nat) (body : StatusBody)
    (h : validStatuses.contains (body.status.getD "") = false) :
    updateAppointmentStatus db caller appointmentId body =
      (.error 400 invalidStatusMsg, db) := by
  unfold updateAppointmentStatus
  have hnmem : body.status.getD "" ∉ validStatuses := by simpa using h
  simp [hnmem]

/-- A valid status on a missing appointment is rejected with 404, and nothing
is written. -/
theorem updateAppointmentStatus_notFound (db : DB) (caller : Caller)
    (appointmentId : Nat) (body : StatusBody)
    (hvalid : validStatuses.contains (body.status.getD "") = true)
    (hfind : db.appointments.find? (fun x => x.id == appointmentId) = none) :
    updateAppointmentStatus db caller appointmentId body =
      (.error 404 "Appointment not found.", db) := by
  unfold updateAppointmentStatus
  have hmem : body.status.getD "" ∈ validStatuses := by simpa using hvalid
  simp [hmem, hfind]

/-- A practitioner caller who is not the assigned practitioner is rejected
with the 400 BadRequestError of the controller, and nothing is written. -/
theorem updateAppointmentStatus_unauthorized (db : DB) (caller : Caller)
    (appointmentId : Nat) (body : StatusBody) (a : Appointment)
    (hvalid : validStatuses.contains (body.status.getD "") = true)
    (hfind : db.appointments.find? (fun x => x.id == appointmentId) = some a)
    (hauth : (caller.role == "practitioner" && a.practitioner != caller.profileId) = true) :
    updateAppointmentStatus db caller appointmentId body =
      (.error 400 "Unauthorized to modify this appointment.", db) := by
  unfold updateAppointmentStatus
  have hmem : body.status.getD "" ∈ validStatuses := by simpa using hvalid
  simp [hmem, hfind, hauth]

/-- In a collection with no duplicate ids, a member whose id matches a
`find?` by id is the found document. -/
theorem find?_id_unique (l : List Appointment)
    (hnd : (l.map Appointment.id).Nodup) (a x : Appointment) (i : Nat)
    (hfind : l.find? (fun y => y.id == i) = some a)
    (hx : x ∈ l) (hxi : x.id = i) : x = a := by
  have ha : a ∈ l := List.mem_of_find?_eq_some hfind
  have hai : a.id = i := by simpa using List.find?_some hfind
  exact List.inj_on_of_nodup_map hnd hx ha (by rw [hxi, hai])

/-- Any projection of the stored appointments that applyStatusUpdate cannot
change is the same before and after any call to updateAppointmentStatus,
provided the collection has no duplicate ids. -/
theorem updateAppointmentStatus_mapFrame {α : Type} (db : DB) (caller : Caller)
    (appointmentId : Nat) (body : StatusBody) (sel : Appointment → α)
    (hnd : (db.appointments.map Appointment.id).Nodup)
    (hsel : ∀ a s, sel (applyStatusUpdate a body s) = sel a) :
    (updateAppointmentStatus db caller appointmentId body).2.appointments.map sel =
      db.appointments.map sel := by
  by_cases hval : validStatuses.contains (body.status.getD "") = true
  · cases hfind : db.appointments.find? (fun x => x.id == appointmentId) with
    | none => rw [updateAppointmentStatus_notFound db caller appointmentId body hval hfind]
    | some a =>
      by_cases hauth : (caller.role == "practitioner" && a.practitioner != caller.profileId) = true
      · rw [updateAppointmentStatus_unauthorized db caller appointmentId body a hval hfind hauth]
      · cases hbs : body.status with
        | none => rw [hbs] at hval; simp [validStatuses] at hval
        | some s =>
          have hval' : validStatuses.contains s = true := by
            rw [hbs] at hval; simpa using hval
          have hok := updateAppointmentStatus_ok db caller appointmentId body a s
            hfind hbs hval' (by simpa using hauth)
          rw [hok]
          simp only [List.map_map]
          apply List.map_congr_left
          intro x hx
          by_cases hid : (x.id == appointmentId) = true
          · have hxa : x = a := find?_id_unique _ hnd a x appointmentId hfind hx
              (by simpa using hid)
            subst hxa
            simp [Function.comp, hid, hsel]
          · simp [Function.comp, hid]
  · rw [updateAppointmentStatus_invalid db caller appointmentId body (by simpa using hval)]

/-! ## Claim C3. -/

def aC3 : Appointment :=
  { id := 1, patient := 5, practitioner := 1, date := 0, timeSlot := "09:00",
    status := "completed" }

def dbC3 : DB :=
  { appointments := [aC3], notes := [], practitioners := [1], nextId := 2, now := 0 }

/-- Counterexample to claim C3: appointment 1 of dbC3 is in the terminal
status "completed", yet the status-update operation applied to it by an admin
succeeds with 200 and its stored status changes to "cancelled". -/
theorem terminal_status_mutable :
    (updateAppointmentStatus dbC3 ⟨"admin", 0⟩ 1
        { status := some "cancelled" }).1.statusCode = some 200 ∧
    ((updateAppointmentStatus dbC3 ⟨"admin", 0⟩ 1
        { status := some "cancelled" }).2.appointments.map Appointment.status) =
      ["cancelled"] := by
  decide

/-- Claim C3 (amended): updateAppointmentStatus has no terminal-state guard.
For an existing appointment in a terminal status ("completed" or "cancelled"),
any request with a valid target status by an authorized caller succeeds with
200 and overwrites the status; an update fails only on an invalid status
value, a missing appointment, or a practitioner caller who is not the
assigned practitioner. -/
theorem updateStatus_no_terminal_guard (db : DB) (caller : Caller)
    (appointmentId : Nat) (body : StatusBody) (a : Appointment) (s : String)
    (hfind : db.appointments.find? (fun x => x.id == appointmentId) = some a)
    (_hterm : a.status = "completed" ∨ a.status = "cancelled")
    (hs : body.status = some s) (hvalid : validStatuses.contains s = true)
    (hauth : (caller.role == "practitioner" && a.practitioner != caller.profileId) = false) :
    (updateAppointmentStatus db caller appointmentId body).1.statusCode = some 200 ∧
    (updateAppointmentStatus db caller appointmentId body).1 =
      .success 200 ("Appointment status updated to " ++ s ++ ".")
        (applyStatusUpdate a body s) ∧
    (applyStatusUpdate a body s).status = s := by
  have hok := updateAppointmentStatus_ok db caller appointmentId body a s
    hfind hs hvalid hauth
  rw [hok]
  exact ⟨rfl, rfl, rfl⟩

/-- Witness for updateStatus_no_terminal_guard: the completed appointment of
dbC3 is moved to "confirmed" by its assigned practitioner. -/
theorem updateStatus_no_terminal_guard_witness :
    (updateAppointmentStatus dbC3 ⟨"practitioner", 1⟩ 1
        { status := some "confirmed" }).1.statusCode = some 200 ∧
    (updateAppointmentStatus dbC3 ⟨"practitioner", 1⟩ 1
        { status := some "confirmed" }).1 =
      .success 200 ("Appointment status updated to " ++ "confirmed" ++ ".")
        (applyStatusUpdate aC3 { status := some "confirmed" } "confirmed") ∧
    (applyStatusUpdate aC3 { status := some "confirmed" } "confirmed").status =
      "confirmed" :=
  updateStatus_no_terminal_guard dbC3 ⟨"practitioner", 1⟩ 1
    { status := some "confirmed" } aC3 "confirmed" (by decide) (Or.inl rfl) rfl
    (by decide) (by decide)

/-! ## Claim C5. -/

def aC5 : Appointment :=
  { id := 1, patient := 5, practitioner := 1, date := 0, timeSlot := "09:00",
    status := "pending" }

def dbC5 : DB :=
  { appointments := [aC5], notes := [], practitioners := [1, 2], nextId := 2, now := 0 }

/-- Counterexample to claim C5: practitioner 2 is not the practitioner
assigned to appointment 1, yet the status-update endpoint rejects the call
with a 400 BadRequestError, not with a 403 authorization error. -/
theorem wrong_practitioner_gets_400 :
    (updateStatusEndpoint dbC5 ⟨"practitioner", 2⟩ 1
        { status := some "confirmed" }).1 =
      .error 400 "Unauthorized to modify this appointment." ∧
    ¬ ((updateStatusEndpoint dbC5 ⟨"practitioner", 2⟩ 1
        { status := some "confirmed" }).1.statusCode = some 403) := by
  decide

/-- Claim C5 (amended): for every call to the status-update endpoint, a caller
whose role is neither practitioner nor admin is rejected with 403 by the route
guard; with an allowed role, a target status outside validStatuses yields a
400 validation error whose message names the allowed set; with a valid
status, a nonexistent appointment id yields 404; a practitioner caller who is
not the assigned practitioner yields a 400 BadRequestError ("Unauthorized to
modify this appointment."), not a 403; and otherwise the update succeeds with
200 and the updated record.  No rejected call writes anything. -/
theorem updateStatusEndpoint_response_cases (db : DB) (caller : Caller)
    (appointmentId : Nat) (body : StatusBody) :
    ((["practitioner", "admin"] : List String).contains caller.role = false →
      updateStatusEndpoint db caller appointmentId body =
        (.error 403 ("Access denied. Role " ++ caller.role ++
          " is not authorized for this route."), db)) ∧
    ((["practitioner", "admin"] : List String).contains caller.role = true →
      validStatuses.contains (body.status.getD "") = false →
      updateStatusEndpoint db caller appointmentId body =
        (.error 400 invalidStatusMsg, db)) ∧
    ((["practitioner", "admin"] : List String).contains caller.role = true →
      validStatuses.contains (body.status.getD "") = true →
      db.appointments.find? (fun x => x.id == appointmentId) = none →
      updateStatusEndpoint db caller appointmentId body =
        (.error 404 "Appointment not found.", db)) ∧
    (∀ a, validStatuses.contains (body.status.getD "") = true →
      db.appointments.find? (fun x => x.id == appointmentId) = some a →
      caller.role = "practitioner" → a.practitioner ≠ caller.profileId →
      updateStatusEndpoint db caller appointmentId body =
        (.error 400 "Unauthorized to modify this appointment.", db)) ∧
    (∀ a s, (["practitioner", "admin"] : List String).contains caller.role = true →
      body.status = some s → validStatuses.contains s = true →
      db.appointments.find? (fun x => x.id == appointmentId) = some a →
      (caller.role == "practitioner" && a.practitioner != caller.profileId) = false →
      updateStatusEndpoint db caller appointmentId body =
        (.success 200 ("Appointment status updated to " ++ s ++ ".")
            (applyStatusUpdate a body s),
          { db with appointments := db.appointments.map (fun x =>
              if x.id == appointmentId then applyStatusUpdate a body s else x) })) := by
  refine ⟨?_, ?_, ?_, ?_, ?_⟩
  · intro hrole
    unfold updateStatusEndpoint authorize
    have h1 : caller.role ≠ "practitioner" ∧ caller.role ≠ "admin" := by
      simpa using hrole
    simp [h1.1, h1.2]
  · intro hrole hval
    rw [updateStatusEndpoint_eq_controller db caller appointmentId body hrole]
    exact updateAppointmentStatus_invalid db caller appointmentId body hval
  · intro hrole hval hfind
    rw [updateStatusEndpoint_eq_controller db caller appointmentId body hrole]
    exact updateAppointmentStatus_notFound db caller appointmentId body hval hfind
  · intro a hval hfind hrole hnp
    rw [updateStatusEndpoint_eq_controller db caller appointmentId body (by simp [hrole])]
    refine updateAppointmentStatus_unauthorized db caller appointmentId body a hval hfind ?_
    simp [hrole, hnp]
  · intro a s hrole hs hval hfind hauth
    rw [updateStatusEndpoint_eq_controller db caller appointmentId body hrole]
    exact updateAppointmentStatus_ok db caller appointmentId body a s hfind hs hval hauth

/-- Witness for updateStatusEndpoint_response_cases: concrete calls hitting
the 403-role, 400-invalid-status, 404, 400-unauthorized, and 200 branches. -/
theorem updateStatusEndpoint_response_cases_witness :
    updateStatusEndpoint dbC5 ⟨"patient", 5⟩ 1 { status := some "confirmed" } =
      (.error 403 ("Access denied. Role " ++ "patient" ++
        " is not authorized for this route."), dbC5) ∧
    updateStatusEndpoint dbC5 ⟨"admin", 0⟩ 1 { status := some "nonsense" } =
      (.error 400 invalidStatusMsg, dbC5) ∧
    updateStatusEndpoint dbC5 ⟨"admin", 0⟩ 99 { status := some "confirmed" } =
      (.error 404 "Appointment not found.", dbC5) ∧
    updateStatusEndpoint dbC5 ⟨"practitioner", 2⟩ 1 { status := some "cancelled" } =
      (.error 400 "Unauthorized to modify this appointment.", dbC5) ∧
    updateStatusEndpoint dbC5 ⟨"practitioner", 1⟩ 1 { status := some "confirmed" } =
      (.success 200 ("Appointment status updated to " ++ "confirmed" ++ ".")
          (applyStatusUpdate aC5 { status := some "confirmed" } "confirmed"),
        { dbC5 with appointments := dbC5.appointments.map (fun x =>
            if x.id == 1 then applyStatusUpdate aC5 { status := some "confirmed" } "confirmed"
            else x) }) :=
  ⟨(updateStatusEndpoint_response_cases dbC5 ⟨"patient", 5⟩ 1
      { status := some "confirmed" }).1 (by decide),
   (updateStatusEndpoint_response_cases dbC5 ⟨"admin", 0⟩ 1
      { status := some "nonsense" }).2.1 (by decide) (by decide),
   (updateStatusEndpoint_response_cases dbC5 ⟨"admin", 0⟩ 99
      { status := some "confirmed" }).2.2.1 (by decide) (by decide) (by decide),
   (updateStatusEndpoint_response_cases dbC5 ⟨"practitioner", 2⟩ 1
      { status := some "cancelled" }).2.2.2.1 aC5 (by decide) (by decide) rfl
      (by decide),
   (updateStatusEndpoint_response_cases dbC5 ⟨"practitioner", 1⟩ 1
      { status := some "confirmed" }).2.2.2.2 aC5 "confirmed" (by decide) rfl
      (by decide) (by decide) (by decide)⟩

/-! ## Claim C6. -/

def aC6 : Appointment :=
  { id := 1, patient := 5, practitioner := 1, date := 100, timeSlot := "09:00",
    status := "pending" }

def dbC6 : DB :=
  { appointments := [aC6], notes := [], practitioners := [1], nextId := 2, now := 0 }

/-- Counterexample to claim C6: a bare "rescheduled" request carrying no new
date or timeSlot (the endpoint does not even read such fields) is accepted
with 200, and the stored appointment keeps its original date and timeSlot
while its status becomes "rescheduled" — no availability re-check and no slot
update happen. -/
theorem bare_reschedule_accepted :
    (updateAppointmentStatus dbC6 ⟨"practitioner", 1⟩ 1
        { status := some "rescheduled" }).1.statusCode = some 200 ∧
    ((updateAppointmentStatus dbC6 ⟨"practitioner", 1⟩ 1
        { status := some "rescheduled" }).2.appointments.map
        (fun x => (x.date, x.timeSlot, x.status))) =
      [(100, "09:00", "rescheduled")] := by
  decide

/-- Claim C6 (amended): a transition to "rescheduled" changes only the status
(and possibly notes): the endpoint accepts a bare "rescheduled" request from
an authorized caller on an existing appointment with 200, the request body
carries no replacement slot and no availability re-check is performed, and
the date and timeSlot of every stored appointment are unchanged by every
status-update call, accepted or rejected. -/
theorem reschedule_changes_only_status (db : DB) (caller : Caller)
    (appointmentId : Nat) (body : StatusBody) :
    (∀ a, db.appointments.find? (fun x => x.id == appointmentId) = some a →
      body.status = some "rescheduled" →
      (caller.role == "practitioner" && a.practitioner != caller.profileId) = false →
      updateAppointmentStatus db caller appointmentId body =
        (.success 200 ("Appointment status updated to " ++ "rescheduled" ++ ".")
            (applyStatusUpdate a body "rescheduled"),
          { db with appointments := db.appointments.map (fun x =>
              if x.id == appointmentId then applyStatusUpdate a body "rescheduled"
              else x) }) ∧
      (applyStatusUpdate a body "rescheduled").date = a.date ∧
      (applyStatusUpdate a body "rescheduled").timeSlot = a.timeSlot ∧
      (applyStatusUpdate a body "rescheduled").status = "rescheduled") ∧
    ((db.appointments.map Appointment.id).Nodup →
      (updateAppointmentStatus db caller appointmentId body).2.appointments.map
          (fun x => (x.date, x.timeSlot)) =
        db.appointments.map (fun x => (x.date, x.timeSlot))) := by
  constructor
  · intro a hfind hs hauth
    have hok := updateAppointmentStatus_ok db caller appointmentId body a
      "rescheduled" hfind hs (by decide) hauth
    exact ⟨hok, rfl, rfl, rfl⟩
  · intro hnd
    exact updateAppointmentStatus_mapFrame db caller appointmentId body _ hnd
      (fun _ _ => rfl)

/-- Witness for reschedule_changes_only_status: the pending appointment of
dbC6 is bare-rescheduled by its practitioner; the slot survives. -/
theorem reschedule_changes_only_status_witness :
    (updateAppointmentStatus dbC6 ⟨"practitioner", 1⟩ 1
        { status := some "rescheduled" } =
      (.success 200 ("Appointment status updated to " ++ "rescheduled" ++ ".")
          (applyStatusUpdate aC6 { status := some "rescheduled" } "rescheduled"),
        { dbC6 with appointments := dbC6.appointments.map (fun x =>
            if x.id == 1 then applyStatusUpdate aC6 { status := some "rescheduled" } "rescheduled"
            else x) }) ∧
      (applyStatusUpdate aC6 { status := some "rescheduled" } "rescheduled").date = aC6.date ∧
      (applyStatusUpdate aC6 { status := some "rescheduled" } "rescheduled").timeSlot = aC6.timeSlot ∧
      (applyStatusUpdate aC6 { status := some "rescheduled" } "rescheduled").status = "rescheduled") ∧
    ((updateAppointmentStatus dbC6 ⟨"practitioner", 1⟩ 1
        { status := some "rescheduled" }).2.appointments.map
        (fun x => (x.date, x.timeSlot)) =
      dbC6.appointments.map (fun x => (x.date, x.timeSlot))) :=
  ⟨(reschedule_changes_only_status dbC6 ⟨"practitioner", 1⟩ 1
      { status := some "rescheduled" }).1 aC6 (by decide) rfl (by decide),
   (reschedule_changes_only_status dbC6 ⟨"practitioner", 1⟩ 1
      { status := some "rescheduled" }).2 (by decide)⟩

/-! ## Claim C10. -/

/-- Claim C10 (confirmed): a successful status update leaves patient,
practitioner, date, timeSlot, duration, mode, and location unchanged, both in
the returned record and across the stored collection; status becomes the
requested value; sessionLink takes the body value exactly when the target
status is "confirmed" (no condition on mode); notes is overwritten exactly
when a truthy (non-empty) notes value is supplied and kept otherwise. -/
theorem updateStatus_frame (db : DB) (caller : Caller) (appointmentId : Nat)
    (body : StatusBody) (a : Appointment) (s : String)
    (hfind : db.appointments.find? (fun x => x.id == appointmentId) = some a)
    (hs : body.status = some s) (hvalid : validStatuses.contains s = true)
    (hauth : (caller.role == "practitioner" && a.practitioner != caller.profileId) = false)
    (hnd : (db.appointments.map Appointment.id).Nodup) :
    updateAppointmentStatus db caller appointmentId body =
      (.success 200 ("Appointment status updated to " ++ s ++ ".")
          (applyStatusUpdate a body s),
        { db with appointments := db.appointments.map (fun x =>
            if x.id == appointmentId then applyStatusUpdate a body s else x) }) ∧
    (applyStatusUpdate a body s).patient = a.patient ∧
    (applyStatusUpdate a body s).practitioner = a.practitioner ∧
    (applyStatusUpdate a body s).date = a.date ∧
    (applyStatusUpdate a body s).timeSlot = a.timeSlot ∧
    (applyStatusUpdate a body s).duration = a.duration ∧
    (applyStatusUpdate a body s).mode = a.mode ∧
    (applyStatusUpdate a body s).location = a.location ∧
    (applyStatusUpdate a body s).status = s ∧
    (applyStatusUpdate a body s).sessionLink =
      (if s == "confirmed" then body.sessionLink else a.sessionLink) ∧
    (applyStatusUpdate a body s).notes =
      (if truthyStr body.notes then body.notes else a.notes) ∧
    (updateAppointmentStatus db caller appointmentId body).2.appointments.map
        (fun x => (x.patient, x.practitioner, x.date, x.timeSlot, x.duration,
                   x.mode, x.location)) =
      db.appointments.map
        (fun x => (x.patient, x.practitioner, x.date, x.timeSlot, x.duration,
                   x.mode, x.location)) := by
  refine ⟨updateAppointmentStatus_ok db caller appointmentId body a s hfind hs hvalid hauth,
    rfl, rfl, rfl, rfl, rfl, rfl, rfl, rfl, rfl, rfl, ?_⟩
  exact updateAppointmentStatus_mapFrame db caller appointmentId body _ hnd
    (fun _ _ => rfl)

def aC10 : Appointment :=
  { id := 3, patient := 8, practitioner := 2, date := 50, timeSlot := "11:00",
    duration := 45, mode := "in-person", location := some "clinic",
    reason := some "followup", notes := some "old notes",
    sessionLink := some "old-link", status := "pending" }

def dbC10 : DB :=
  { appointments := [aC10], notes := [], practitioners := [2], nextId := 4, now := 9 }

/-- Witness for updateStatus_frame: a completion request that supplies a
sessionLink (discarded, target not "confirmed") and an empty notes string
(falsy, old notes kept). -/
theorem updateStatus_frame_witness :
    updateAppointmentStatus dbC10 ⟨"practitioner", 2⟩ 3
        { status := some "completed", sessionLink := some "new-link", notes := some "" } =
      (.success 200 ("Appointment status updated to " ++ "completed" ++ ".")
          (applyStatusUpdate aC10
            { status := some "completed", sessionLink := some "new-link", notes := some "" }
            "completed"),
        { dbC10 with appointments := dbC10.appointments.map (fun x =>
            if x.id == 3 then applyStatusUpdate aC10
              { status := some "completed", sessionLink := some "new-link", notes := some "" }
              "completed" else x) }) ∧
    (applyStatusUpdate aC10
      { status := some "completed", sessionLink := some "new-link", notes := some "" }
      "completed").patient = aC10.patient ∧
    (applyStatusUpdate aC10
      { status := some "completed", sessionLink := some "new-link", notes := some "" }
      "completed").practitioner = aC10.practitioner ∧
    (applyStatusUpdate aC10
      { status := some "completed", sessionLink := some "new-link", notes := some "" }
      "completed").date = aC10.date ∧
    (applyStatusUpdate aC10
      { status := some "completed", sessionLink := some "new-link", notes := some "" }
      "completed").timeSlot = aC10.timeSlot ∧
    (applyStatusUpdate aC10
      { status := some "completed", sessionLink := some "new-link", notes := some "" }
      "completed").duration = aC10.duration ∧
    (applyStatusUpdate aC10
      { status := some "completed", sessionLink := some "new-link", notes := some "" }
      "completed").mode = aC10.mode ∧
    (applyStatusUpdate aC10
      { status := some "completed", sessionLink := some "new-link", notes := some "" }
      "completed").location = aC10.location ∧
    (applyStatusUpdate aC10
      { status := some "completed", sessionLink := some "new-link", notes := some "" }
      "completed").status = "completed" ∧
    (applyStatusUpdate aC10
      { status := some "completed", sessionLink := some "new-link", notes := some "" }
      "completed").sessionLink =
      (if ("completed" : String) == "confirmed" then some "new-link" else aC10.sessionLink) ∧
    (applyStatusUpdate aC10
      { status := some "completed", sessionLink := some "new-link", notes := some "" }
      "completed").notes =
      (if truthyStr (some "") then some "" else aC10.notes) ∧
    (updateAppointmentStatus dbC10 ⟨"practitioner", 2⟩ 3
        { status := some "completed", sessionLink := some "new-link", notes := some "" }).2.appointments.map
        (fun x => (x.patient, x.practitioner, x.date, x.timeSlot, x.duration,
                   x.mode, x.location)) =
      dbC10.appointments.map
        (fun x => (x.patient, x.practitioner, x.date, x.timeSlot, x.duration,
                   x.mode, x.location)) :=
  updateStatus_frame dbC10 ⟨"practitioner", 2⟩ 3
    { status := some "completed", sessionLink := some "new-link", notes := some "" }
    aC10 "completed" (by decide) rfl (by decide) (by decide) (by decide)

/-! ## Claim C9. -/

def aC9 : Appointment :=
  { id := 1, patient := 5, practitioner := 1, date := 0, timeSlot := "09:00",
    reason := some "checkup", status := "confirmed" }

def dbC9 : DB :=
  { appointments := [aC9], notes := [], practitioners := [1], nextId := 2, now := 777 }

/-- Counterexample to claim C9: an admin cancels appointment 1 of dbC9 through
the routed status-update handler without supplying a reason.  The call
succeeds, and the complete post-state equals the pre-state with only the
status string replaced: no cancellation reason and no cancellation date are
recorded anywhere (the Appointment schema has no such fields, and the handler
writes only status, sessionLink, and notes). -/
theorem cancellation_not_stamped :
    updateAppointmentStatus dbC9 ⟨"admin", 0⟩ 1 { status := some "cancelled" } =
      (.success 200 "Appointment status updated to cancelled."
          { aC9 with status := "cancelled" },
        { dbC9 with appointments := [{ aC9 with status := "cancelled" }] }) := by
  decide

/-- Claim C9 (amended): successful transitions through the routed
status-update endpoint stamp nothing: every stored field other than status,
sessionLink, and notes is unchanged by any call (the Appointment schema
declares no cancellation or completion fields).  The stamping described by
the claim exists only in the service helper
appointmentService.updateAppointmentStatus, which no route calls: its update
payload for "cancelled" carries the supplied reason or the default
"Cancelled by user/admin." plus a cancellation date, and for "completed" a
completion date. -/
theorem cancellation_stamps_only_in_service_layer :
    (∀ (db : DB) (caller : Caller) (appointmentId : Nat) (body : StatusBody),
      (db.appointments.map Appointment.id).Nodup →
      (updateAppointmentStatus db caller appointmentId body).2.appointments.map
          (fun x => (x.patient, x.practitioner, x.date, x.timeSlot, x.duration,
                     x.mode, x.location, x.reason)) =
        db.appointments.map
          (fun x => (x.patient, x.practitioner, x.date, x.timeSlot, x.duration,
                     x.mode, x.location, x.reason))) ∧
    (∀ (reason : Option String) (clock : Nat),
      (AppointmentService.buildUpdateFields "cancelled" reason clock).cancellationReason =
        (if truthyStr reason then reason else some "Cancelled by user/admin.") ∧
      (AppointmentService.buildUpdateFields "cancelled" reason clock).cancellationDate =
        some clock) ∧
    (∀ (reason : Option String) (clock : Nat),
      (AppointmentService.buildUpdateFields "completed" reason clock).completionDate =
        some clock) := by
  refine ⟨?_, ?_, ?_⟩
  · intro db caller appointmentId body hnd
    exact updateAppointmentStatus_mapFrame db caller appointmentId body _ hnd
      (fun _ _ => rfl)
  · intro reason clock
    unfold AppointmentService.buildUpdateFields
    constructor <;> simp
  · intro reason clock
    unfold AppointmentService.buildUpdateFields
    simp

/-- Witness for cancellation_stamps_only_in_service_layer: the concrete
cancellation of dbC9 stamps nothing in the store, while the service payloads
carry the default reason and the dates. -/
theorem cancellation_stamps_only_in_service_layer_witness :
    ((updateAppointmentStatus dbC9 ⟨"admin", 0⟩ 1
        { status := some "cancelled" }).2.appointments.map
        (fun x => (x.patient, x.practitioner, x.date, x.timeSlot, x.duration,
                   x.mode, x.location, x.reason)) =
      dbC9.appointments.map
        (fun x => (x.patient, x.practitioner, x.date, x.timeSlot, x.duration,
                   x.mode, x.location, x.reason))) ∧
    ((AppointmentService.buildUpdateFields "cancelled" none 777).cancellationReason =
        (if truthyStr none then none else some "Cancelled by user/admin.") ∧
      (AppointmentService.buildUpdateFields "cancelled" none 777).cancellationDate =
        some 777) ∧
    ((AppointmentService.buildUpdateFields "completed" none 777).completionDate =
      some 777) :=
  ⟨cancellation_stamps_only_in_service_layer.1 dbC9 ⟨"admin", 0⟩ 1
      { status := some "cancelled" } (by decide),
   cancellation_stamps_only_in_service_layer.2.1 none 777,
   cancellation_stamps_only_in_service_layer.2.2 none 777⟩

/-! ## Claim C7. -/

/-- Claim C7 (confirmed): booking answers 400 when a required body field
(practitionerId, date, timeSlot, reason) is missing or empty; with the fields
present, 404 when the referenced practitioner does not exist; with an
existing practitioner, 409 when the slot fails the availability check — and
in each of these cases the store is unchanged, so no record is created;
otherwise it inserts exactly one new appointment in status "pending" for the
calling patient at the requested practitioner, date, and timeSlot, and
answers 201 with it. -/
theorem createAppointment_response_cases (db : DB) (caller : Caller)
    (body : CreateBody) :
    (requiredBookingFieldsPresent body = false →
      createAppointment db caller body = (.error 400 missingFieldsMsg, db)) ∧
    (requiredBookingFieldsPresent body = true →
      db.practitioners.contains (body.practitionerId.getD 0) = false →
      createAppointment db caller body = (.error 404 "Practitioner not found.", db)) ∧
    (requiredBookingFieldsPresent body = true →
      db.practitioners.contains (body.practitionerId.getD 0) = true →
      checkAvailability db (body.practitionerId.getD 0) (body.date.getD 0)
        (body.timeSlot.getD "") = false →
      createAppointment db caller body =
        (.error 409 "The selected time slot is already booked.", db)) ∧
    (requiredBookingFieldsPresent body = true →
      db.practitioners.contains (body.practitionerId.getD 0) = true →
      checkAvailability db (body.practitionerId.getD 0) (body.date.getD 0)
        (body.timeSlot.getD "") = true →
      ∃ appt, createAppointment db caller body =
        (.success 201 "Appointment booked successfully and is pending confirmation." appt,
          { db with appointments := db.appointments ++ [appt],
                    nextId := db.nextId + 1 }) ∧
        appt.status = "pending" ∧ appt.patient = caller.profileId ∧
        appt.practitioner = body.practitionerId.getD 0 ∧
        appt.date = body.date.getD 0 ∧ appt.timeSlot = body.timeSlot.getD "" ∧
        appt.id = db.nextId) := by
  refine ⟨?_, ?_, ?_, ?_⟩
  · intro hreq
    unfold createAppointment
    simp [hreq]
  · intro hreq hex
    have hex' : body.practitionerId.getD 0 ∉ db.practitioners := by simpa using hex
    unfold createAppointment
    simp [hreq, hex']
  · intro hreq hex hav
    have hex' : body.practitionerId.getD 0 ∈ db.practitioners := by simpa using hex
    unfold createAppointment
    simp [hreq, hex', hav]
  · intro hreq hex hav
    have hex' : body.practitionerId.getD 0 ∈ db.practitioners := by simpa using hex
    unfold createAppointment
    simp [hreq, hex', hav]

def aC7 : Appointment :=
  { id := 4, patient := 9, practitioner := 1, date := 0, timeSlot := "10:00",
    status := "pending" }

def dbC7 : DB :=
  { appointments := [aC7], notes := [], practitioners := [1], nextId := 5, now := 0 }

/-- Witness for createAppointment_response_cases: concrete calls hitting the
400, 404, 409, and 201 branches against dbC7. -/
theorem createAppointment_response_cases_witness :
    createAppointment dbC7 ⟨"patient", 9⟩ { } = (.error 400 missingFieldsMsg, dbC7) ∧
    createAppointment dbC7 ⟨"patient", 9⟩
        { practitionerId := some 42, date := some 0, timeSlot := some "10:00",
          reason := some "checkup" } =
      (.error 404 "Practitioner not found.", dbC7) ∧
    createAppointment dbC7 ⟨"patient", 9⟩
        { practitionerId := some 1, date := some 0, timeSlot := some "10:00",
          reason := some "checkup" } =
      (.error 409 "The selected time slot is already booked.", dbC7) ∧
    (∃ appt, createAppointment dbC7 ⟨"patient", 9⟩
        { practitionerId := some 1, date := some 0, timeSlot := some "12:00",
          reason := some "checkup" } =
        (.success 201 "Appointment booked successfully and is pending confirmation." appt,
          { dbC7 with appointments := dbC7.appointments ++ [appt],
                      nextId := dbC7.nextId + 1 }) ∧
      appt.status = "pending" ∧ appt.patient = 9 ∧
      appt.practitioner = 1 ∧ appt.date = 0 ∧ appt.timeSlot = "12:00" ∧
      appt.id = 5) :=
  ⟨(createAppointment_response_cases dbC7 ⟨"patient", 9⟩ { }).1 (by decide),
   (createAppointment_response_cases dbC7 ⟨"patient", 9⟩
      { practitionerId := some 42, date := some 0, timeSlot := some "10:00",
        reason := some "checkup" }).2.1 (by decide) (by decide),
   (createAppointment_response_cases dbC7 ⟨"patient", 9⟩
      { practitionerId := some 1, date := some 0, timeSlot := some "10:00",
        reason := some "checkup" }).2.2.1 (by decide) (by decide) (by decide),
   (createAppointment_response_cases dbC7 ⟨"patient", 9⟩
      { practitionerId := some 1, date := some 0, timeSlot := some "12:00",
        reason := some "checkup" }).2.2.2 (by decide) (by decide) (by decide)⟩

/-! ## Claim C4. -/

/-- Componentwise reading of the base conflict query of the service layer. -/
theorem conflictQueryMatches_iff (d : Nat) (s : String) (ex : Option Nat)
    (a : Appointment) :
    AppointmentService.conflictQueryMatches d s ex a = true ↔
      (AppointmentService.startOfDay d ≤ a.date ∧
       a.date ≤ AppointmentService.endOfDay d ∧
       a.timeSlot = s ∧ a.status ∈ AppointmentService.conflictStatuses ∧
       ∀ e, ex = some e → a.id ≠ e) := by
  cases ex <;>
    simp [AppointmentService.conflictQueryMatches, Bool.and_eq_true, beq_iff_eq,
      decide_eq_true_eq] <;>
    tauto

def aC4 : Appointment :=
  { id := 1, patient := 9, practitioner := 1, date := 0, timeSlot := "10:00",
    status := "rescheduled" }

def dbC4 : DB :=
  { appointments := [aC4], notes := [], practitioners := [1], nextId := 2, now := 0 }

/-- Counterexample to claim C4: dbC4 holds a "rescheduled" appointment of
practitioner 1 at the queried slot.  The claim requires the availability
check with an excludeAppointmentId parameter to report the slot taken, but
checkForConflicts — the only checker with that parameter — reports no
conflict, because its status list omits "rescheduled"; the routed
checkAvailability does block the slot, but has no exclude parameter. -/
theorem rescheduled_not_blocking_in_service_check :
    AppointmentService.checkForConflicts dbC4 1 9 0 "10:00" none = false ∧
    checkAvailability dbC4 1 0 "10:00" = false := by
  decide

/-- Claim C4 (amended): the routed checkAvailability(practitionerId, date,
timeSlot) — which takes no excludeAppointmentId — returns false exactly when
some appointment of the practitioner at that exact date and exact timeSlot
has status in ("pending", "confirmed", "rescheduled"), so terminal statuses
never block; the service checkForConflicts is the variant with
excludeAppointmentId, and it returns a conflict exactly when an appointment
in the whole requested day at that timeSlot, with status in ("pending",
"confirmed") — "rescheduled" does not block here — and an id different from
the excluded one, belongs to the practitioner or to the patient.  Both checks
are read-only (they are functions of the store). -/
theorem availability_checks_characterization :
    (∀ (db : DB) (p d : Nat) (s : String),
      checkAvailability db p d s = false ↔
        ∃ a, a ∈ db.appointments ∧ a.practitioner = p ∧ a.date = d ∧
          a.timeSlot = s ∧ a.status ∈ blockingStatuses) ∧
    (∀ (db : DB) (p pat d : Nat) (s : String) (ex : Option Nat),
      AppointmentService.checkForConflicts db p pat d s ex = true ↔
        ∃ a, a ∈ db.appointments ∧
          AppointmentService.startOfDay d ≤ a.date ∧
          a.date ≤ AppointmentService.endOfDay d ∧
          a.timeSlot = s ∧ a.status ∈ AppointmentService.conflictStatuses ∧
          (∀ e, ex = some e → a.id ≠ e) ∧
          (a.practitioner = p ∨ a.patient = pat)) := by
  constructor
  · intro db p d s
    unfold checkAvailability
    simp [Option.isNone_eq_false_iff, List.find?_isSome, Bool.and_eq_true, beq_iff_eq]
    tauto
  · intro db p pat d s ex
    unfold AppointmentService.checkForConflicts
    constructor
    · intro h
      by_cases h1 : (db.appointments.find? (fun a =>
          AppointmentService.conflictQueryMatches d s ex a &&
            a.practitioner == p)).isSome = true
      · obtain ⟨a, ha, hpa⟩ := List.find?_isSome.mp h1
        rw [Bool.and_eq_true, beq_iff_eq] at hpa
        have hq := (conflictQueryMatches_iff d s ex a).mp hpa.1
        exact ⟨a, ha, hq.1, hq.2.1, hq.2.2.1, hq.2.2.2.1, hq.2.2.2.2, Or.inl hpa.2⟩
      · rw [if_neg h1] at h
        obtain ⟨a, ha, hpa⟩ := List.find?_isSome.mp h
        rw [Bool.and_eq_true, beq_iff_eq] at hpa
        have hq := (conflictQueryMatches_iff d s ex a).mp hpa.1
        exact ⟨a, ha, hq.1, hq.2.1, hq.2.2.1, hq.2.2.2.1, hq.2.2.2.2, Or.inr hpa.2⟩
    · rintro ⟨a, ha, h1, h2, h3, h4, h5, h6 | h6⟩
      · have hfound : (db.appointments.find? (fun a =>
            AppointmentService.conflictQueryMatches d s ex a &&
              a.practitioner == p)).isSome = true :=
          List.find?_isSome.mpr ⟨a, ha, by
            rw [Bool.and_eq_true, beq_iff_eq]
            exact ⟨(conflictQueryMatches_iff d s ex a).mpr ⟨h1, h2, h3, h4, h5⟩, h6⟩⟩
        rw [if_pos hfound]
      · by_cases h1' : (db.appointments.find? (fun a =>
            AppointmentService.conflictQueryMatches d s ex a &&
              a.practitioner == p)).isSome = true
        · rw [if_pos h1']
        · rw [if_neg h1']
          exact List.find?_isSome.mpr ⟨a, ha, by
            rw [Bool.and_eq_true, beq_iff_eq]
            exact ⟨(conflictQueryMatches_iff d s ex a).mpr ⟨h1, h2, h3, h4, h5⟩, h6⟩⟩

/-- Witness for availability_checks_characterization: against dbC4 the routed
check reports the slot blocked and the characterization produces the stored
rescheduled appointment as the blocking witness. -/
theorem availability_checks_characterization_witness :
    ∃ a, a ∈ dbC4.appointments ∧ a.practitioner = 1 ∧ a.date = 0 ∧
      a.timeSlot = "10:00" ∧ a.status ∈ blockingStatuses :=
  (availability_checks_characterization.1 dbC4 1 0 "10:00").mp (by decide)

/-! ## Claim C1. -/

/-- The post-state of a booking: either the store is untouched (one of the
three rejection paths), or checkAvailability held and exactly one "pending"
appointment at the requested (practitioner, date, timeSlot) was appended. -/
theorem createAppointment_post (db : DB) (caller : Caller) (body : CreateBody) :
    (createAppointment db caller body).2.appointments = db.appointments ∨
    (checkAvailability db (body.practitionerId.getD 0) (body.date.getD 0)
        (body.timeSlot.getD "") = true ∧
      ∃ appt, (createAppointment db caller body).2.appointments =
          db.appointments ++ [appt] ∧
        appt.practitioner = body.practitionerId.getD 0 ∧
        appt.date = body.date.getD 0 ∧
        appt.timeSlot = body.timeSlot.getD "" ∧
        appt.status = "pending") := by
  by_cases h1 : requiredBookingFieldsPresent body = true
  · by_cases h2 : body.practitionerId.getD 0 ∈ db.practitioners
    · by_cases h3 : checkAvailability db (body.practitionerId.getD 0)
          (body.date.getD 0) (body.timeSlot.getD "") = true
      · right
        refine ⟨h3, ?_⟩
        unfold createAppointment
        simp [h1, h2, h3]
      · left
        unfold createAppointment
        simp [h1, h2, h3]
    · left
      unfold createAppointment
      simp [h1, h2]
  · left
    unfold createAppointment
    simp [h1]

/-- One booking preserves the practitioner side of the no-double-booking
invariant: the insert is guarded by checkAvailability, which rules out any
stored blocking appointment at the same (practitioner, date, timeSlot). -/
theorem createAppointment_preserves_practitionerSlotFree (db : DB)
    (caller : Caller) (body : CreateBody) (h : practitionerSlotFree db) :
    practitionerSlotFree (createAppointment db caller body).2 := by
  rcases createAppointment_post db caller body with heq |
    ⟨hav, appt, heq, hp, hd, ht, hs⟩
  · unfold practitionerSlotFree at h ⊢
    rw [heq]
    exact h
  · have hnone : db.appointments.find? (fun a =>
        a.practitioner == body.practitionerId.getD 0 &&
          a.date == body.date.getD 0 &&
          a.timeSlot == body.timeSlot.getD "" &&
          blockingStatuses.contains a.status) = none := by
      unfold checkAvailability at hav
      exact Option.isNone_iff_eq_none.mp hav
    unfold practitionerSlotFree at h ⊢
    rw [heq, List.pairwise_append]
    refine ⟨h, List.pairwise_singleton _ _, ?_⟩
    intro x hx y hy
    have hy' := List.mem_singleton.mp hy
    subst hy'
    have hall := List.find?_eq_none.mp hnone x hx
    refine Bool.eq_false_iff.mpr fun hpc => hall ?_
    simp only [practitionerConflict, Bool.and_eq_true, beq_iff_eq] at hpc
    obtain ⟨⟨⟨⟨hbx, _⟩, hpr⟩, hda⟩, hts⟩ := hpc
    simp only [Bool.and_eq_true, beq_iff_eq]
    refine ⟨⟨⟨?_, ?_⟩, ?_⟩, hbx⟩
    · rw [hpr, hp]
    · rw [hda, hd]
    · rw [hts, ht]

/-- The routed booking endpoint also preserves the practitioner side (the
role guard only adds a no-write rejection path). -/
theorem createAppointmentEndpoint_preserves_practitionerSlotFree (db : DB)
    (caller : Caller) (body : CreateBody) (h : practitionerSlotFree db) :
    practitionerSlotFree (createAppointmentEndpoint db caller body).2 := by
  unfold createAppointmentEndpoint
  cases authorize ["patient"] caller with
  | some e => exact h
  | none => exact createAppointment_preserves_practitionerSlotFree db caller body h

def dbC1 : DB :=
  { appointments := [], notes := [], practitioners := [1, 2], nextId := 10, now := 0 }

def bookC1 (r : Nat) : CreateBody :=
  { practitionerId := some r, date := some 0, timeSlot := some "10:00",
    reason := some "checkup" }

def opsC1 : List Op :=
  [ .create ⟨"patient", 50⟩ (bookC1 1),
    .create ⟨"patient", 50⟩ (bookC1 2),
    .updateStatus ⟨"admin", 0⟩ 10 { status := some "cancelled" },
    .create ⟨"patient", 70⟩ (bookC1 1),
    .updateStatus ⟨"admin", 0⟩ 10 { status := some "confirmed" } ]

/-- Counterexample to claim C1: from the empty store, patient 50 books
practitioner 1 and then practitioner 2 for the same date and slot (both
accepted — the availability check never looks at the patient), violating the
patient side; then the first appointment is cancelled, patient 70 books the
freed slot of practitioner 1, and an admin moves the cancelled appointment
back to "confirmed" (no terminal guard), leaving two blocking appointments of
practitioner 1 at the same slot — violating the practitioner side as well. -/
theorem doubleBooking_reachable :
    ¬ patientSlotFree (run dbC1 opsC1) ∧
    ¬ practitionerSlotFree (run dbC1 opsC1) := by
  decide

/-- Claim C1 (amended): sequences consisting only of booking calls preserve
the practitioner side of the invariant — at most one blocking ("pending",
"confirmed", "rescheduled") appointment per (practitioner, date, timeSlot).
The patient side is never checked and fails even for create-only sequences,
and status updates can break the practitioner side by reviving a cancelled
appointment, as the counterexample shows. -/
theorem createOnly_runs_preserve_practitionerSlotFree (db : DB) (ops : List Op)
    (hinv : practitionerSlotFree db)
    (hops : ∀ op ∈ ops, op.isCreate = true) :
    practitionerSlotFree (run db ops) := by
  induction ops generalizing db with
  | nil => exact hinv
  | cons op rest ih =>
    have hop : op.isCreate = true := hops op (List.mem_cons_self op rest)
    have hrest : ∀ o ∈ rest, o.isCreate = true :=
      fun o ho => hops o (List.mem_cons_of_mem op ho)
    cases op with
    | create caller body =>
      exact ih (step db (.create caller body))
        (createAppointmentEndpoint_preserves_practitionerSlotFree db caller body hinv)
        hrest
    | updateStatus c i b => simp [Op.isCreate] at hop

/-- Witness for createOnly_runs_preserve_practitionerSlotFree: two bookings of
different practitioners from the empty store keep the practitioner side. -/
theorem createOnly_runs_preserve_practitionerSlotFree_witness :
    practitionerSlotFree (run dbC1
      [.create ⟨"patient", 50⟩ (bookC1 1), .create ⟨"patient", 60⟩ (bookC1 2)]) :=
  createOnly_runs_preserve_practitionerSlotFree dbC1
    [.create ⟨"patient", 50⟩ (bookC1 1), .create ⟨"patient", 60⟩ (bookC1 2)]
    (by decide) (by decide)

/-! ## Claim C8. -/

/-- In a note collection with no duplicate ids, a member whose id matches a
`find?` by id is the found document. -/
theorem find?_noteId_unique (l : List ClinicalNote)
    (hnd : (l.map ClinicalNote.id).Nodup) (a x : ClinicalNote) (i : Nat)
    (hfind : l.find? (fun y => y.id == i) = some a)
    (hx : x ∈ l) (hxi : x.id = i) : x = a := by
  have ha : a ∈ l := List.mem_of_find?_eq_some hfind
  have hai : a.id = i := by simpa using List.find?_some hfind
  exact List.inj_on_of_nodup_map hnd hx ha (by rw [hxi, hai])

def nC8unsigned : ClinicalNote :=
  { id := 7, patient := 5, practitioner := 3, appointment := 1 }

def nC8signed : ClinicalNote :=
  { id := 8, patient := 5, practitioner := 3, appointment := 2,
    isSigned := true, signedDate := some 5 }

def dbC8 : DB :=
  { appointments := [], notes := [nC8unsigned, nC8signed],
    practitioners := [3, 4], nextId := 9, now := 42 }

/-- Counterexample to claim C8: note 8 of dbC8 is already signed; its creating
practitioner signing it again is rejected with a 400 BadRequest ("Note is
already signed."), not with a 409 conflict. -/
theorem double_sign_gets_400_not_conflict :
    (signClinicalNote dbC8 ⟨"practitioner", 3⟩ 8).1 =
      .error 400 "Note is already signed." ∧
    ¬ ((signClinicalNote dbC8 ⟨"practitioner", 3⟩ 8).1.statusCode = some 409) := by
  decide

/-- Claim C8 (amended): signing succeeds only for the creating practitioner
of the note — any other caller gets a 403 and the store is unchanged;
signing is single-shot — signing an already-signed note fails with a 400
BadRequest error ("Note is already signed."), not a 409 conflict and not a
no-op, and the store is unchanged; a successful signing sets exactly isSigned
and signedDate; and a signed note is never modified by any later
signClinicalNote call (in a store without duplicate note ids). -/
theorem signClinicalNote_guards (db : DB) (caller : Caller) (noteId : Nat) :
    (∀ n, db.notes.find? (fun x => x.id == noteId) = some n →
      n.practitioner ≠ caller.profileId →
      signClinicalNote db caller noteId =
        (.error 403 "Unauthorized: Only the originating practitioner can sign the note.",
          db)) ∧
    (∀ n, db.notes.find? (fun x => x.id == noteId) = some n →
      n.practitioner = caller.profileId → n.isSigned = true →
      signClinicalNote db caller noteId =
        (.error 400 "Note is already signed.", db)) ∧
    (∀ n, db.notes.find? (fun x => x.id == noteId) = some n →
      n.practitioner = caller.profileId → n.isSigned = false →
      signClinicalNote db caller noteId =
        (.success 200 "Clinical note has been successfully signed and finalized."
            { n with isSigned := true, signedDate := some db.now },
          { db with notes := db.notes.map (fun x =>
              if x.id == noteId then { n with isSigned := true, signedDate := some db.now }
              else x) })) ∧
    ((db.notes.map ClinicalNote.id).Nodup →
      ∀ n, n ∈ db.notes → n.isSigned = true →
        n ∈ (signClinicalNote db caller noteId).2.notes) := by
  refine ⟨?_, ?_, ?_, ?_⟩
  · intro n hfind hnp
    unfold signClinicalNote
    simp [hfind, hnp]
  · intro n hfind hp hsig
    unfold signClinicalNote
    simp [hfind, hp, hsig]
  · intro n hfind hp hsig
    unfold signClinicalNote
    simp [hfind, hp, hsig]
  · intro hnd n hn hsig
    unfold signClinicalNote
    cases hfind : db.notes.find? (fun x => x.id == noteId) with
    | none => exact hn
    | some note =>
      by_cases hp : (note.practitioner != caller.profileId) = true
      · simp only [hp, if_true]
        exact hn
      · simp only [Bool.not_eq_true] at hp
        simp only [hp, Bool.false_eq_true, if_false]
        by_cases hsg : note.isSigned = true
        · simp only [hsg, if_true]
          exact hn
        · simp only [hsg, Bool.false_eq_true, if_false]
          rw [List.mem_map]
          refine ⟨n, hn, ?_⟩
          have hneq : (n.id == noteId) = false := by
            refine Bool.eq_false_iff.mpr fun hid => ?_
            have hna : n = note := find?_noteId_unique db.notes hnd note n noteId
              hfind hn (by simpa using hid)
            rw [hna] at hsig
            exact hsg hsig
          simp [hneq]

/-- Witness for signClinicalNote_guards: against dbC8, a foreign practitioner
is rejected with 403, re-signing the signed note yields the 400, signing the
unsigned note sets the signature fields, and the signed note survives a later
signing call untouched. -/
theorem signClinicalNote_guards_witness :
    signClinicalNote dbC8 ⟨"practitioner", 4⟩ 7 =
      (.error 403 "Unauthorized: Only the originating practitioner can sign the note.",
        dbC8) ∧
    signClinicalNote dbC8 ⟨"practitioner", 3⟩ 8 =
      (.error 400 "Note is already signed.", dbC8) ∧
    signClinicalNote dbC8 ⟨"practitioner", 3⟩ 7 =
      (.success 200 "Clinical note has been successfully signed and finalized."
          { nC8unsigned with isSigned := true, signedDate := some 42 },
        { dbC8 with notes := dbC8.notes.map (fun x =>
            if x.id == 7 then { nC8unsigned with isSigned := true, signedDate := some 42 }
            else x) }) ∧
    nC8signed ∈ (signClinicalNote dbC8 ⟨"practitioner", 3⟩ 7).2.notes :=
  ⟨(signClinicalNote_guards dbC8 ⟨"practitioner", 4⟩ 7).1 nC8unsigned (by decide)
      (by decide),
   (signClinicalNote_guards dbC8 ⟨"practitioner", 3⟩ 8).2.1 nC8signed (by decide)
      rfl rfl,
   (signClinicalNote_guards dbC8 ⟨"practitioner", 3⟩ 7).2.2.1 nC8unsigned (by decide)
      rfl rfl,
   (signClinicalNote_guards dbC8 ⟨"practitioner", 3⟩ 7).2.2.2 (by decide) nC8signed
      (by decide) rfl⟩

/-! ## Claim C2. -/

/-- Claim C2 (code bug): every call to createClinicalNote, the
completeWithNote operation, throws ReferenceError before reaching any of its
checks — the module never imports mongoose, and line 15 evaluates
`mongoose.startSession()` outside the try/catch with no asyncHandler on the
route — so no 404/403/409/201 response is ever produced, no clinical note is
ever created, and no appointment is ever completed by it; the store is left
exactly unchanged.  The transactional body after line 15, embedded as
createClinicalNoteBody, is unreachable. -/
theorem createClinicalNote_always_throws (db : DB) (caller : Caller)
    (body : NoteBody) :
    createClinicalNote db caller body =
      (.thrown "ReferenceError: mongoose is not defined", db) := rfl

end HealthMe
